import Mathlib

/-!
Shallow embedding of `ol/onboard/src/commands/wizard_val_cmd.rs` (the 0L
validator onboarding wizard) and proofs of the specification claims about it.

The file models the orchestration pipeline `ValWizardCmd::run` and its helpers
`get_autopay_batch`, `save_template` and `write_account_json` as pure Lean
functions.  External collaborators (the wallet prompt, `reqwest`, the autopay
instruction file reader, `get_tx_params_from_toml`, the key initializer, the
node-file writer and the miner) are supplied through a `World` record of
oracle values, so the pipeline itself is a deterministic function from the
command-line options and the world to a trace of side effects plus an
`Except` outcome (`.error` models `exit(1)` / a Rust panic via
`unwrap`/`expect`).
-/

namespace Onboard

/-- A filesystem path, as the list of its components (`PathBuf`);
`home.join "x"` is `home ++ ["x"]`. -/
abbrev Path := List String

/-- Model of `reqwest::Url`: the parts the wizard touches (host, port, path
segments). -/
structure Url where
  host : String
  port : Option Nat
  path : List String
deriving DecidableEq, Repr

/-- `Url::set_port` (the wizard always calls it with `Some(p)` and unwraps;
on the URLs the wizard handles it cannot fail). -/
def Url.set_port (u : Url) (p : Option Nat) : Url := { u with port := p }

/-- `Url::join` with a final segment. -/
def Url.join (u : Url) (s : String) : Url := { u with path := u.path ++ [s] }

/-- `AppCfg.workspace`: the fields of `Workspace` the wizard reads. -/
structure Workspace where
  node_home : Path
deriving DecidableEq, Repr

/-- `AppCfg.chain_info`: the fields of `ChainInfo` the wizard reads.
The waypoint is opaque to the wizard; a `Nat` token stands for it. -/
structure ChainInfo where
  base_epoch : Option Nat
  base_waypoint : Option Nat
deriving DecidableEq, Repr

/-- `AppCfg.profile`: the fields of `Profile` the wizard reads. -/
structure Profile where
  auth_key : String
  ip : String
deriving DecidableEq, Repr

/-- The application configuration `AppCfg` (the projection the wizard uses). -/
structure AppCfg where
  workspace : Workspace
  chain_info : ChainInfo
  profile : Profile
deriving DecidableEq, Repr

/-- Modelled from the spec: `AppCfg::get_block_dir` is outside src/; the spec
locates the proof at the node's canonical block-storage location,
`<home>/blocks/block_0.json`. -/
def AppCfg.get_block_dir (cfg : AppCfg) : Path :=
  cfg.workspace.node_home ++ ["blocks"]

/-- Modelled from the spec: `ol_types::pay_instruction::PayInstruction` is
outside src/; per the spec a parsed autopay directive is a recipient, an
amount/percentage and a validity epoch range.  Its fields are opaque to the
wizard, which only moves whole instructions around. -/
structure PayInstruction where
  recipient : Nat
  amount : Nat
  start_epoch : Nat
  end_epoch : Option Nat
deriving DecidableEq, Repr

/-- Modelled from the spec: the executable transaction script produced from
one instruction by `autopay_batch_cmd::process_instructions` (outside src/),
a deterministic 1:1 order-preserving conversion. -/
structure TransactionScript where
  instr : PayInstruction
deriving DecidableEq, Repr

/-- `TxParams.tx_cost`: the only field the wizard writes is the user
transaction timeout. -/
structure TxCost where
  user_tx_timeout : Nat
deriving DecidableEq, Repr

/-- Transaction submission parameters resolved by
`submit_tx::get_tx_params_from_toml` (outside src/); the wizard overrides
`tx_cost.user_tx_timeout` after resolution. -/
structure TxParams where
  tx_cost : TxCost
deriving DecidableEq, Repr

/-- Modelled from the spec: a `SignedTransaction` as produced by
`autopay_batch_cmd::sign_instructions` (outside src/): each script signed
with a running sequence number under the resolved parameters, index-aligned
with the scripts. -/
structure SignedTransaction where
  script : TransactionScript
  sequence_number : Nat
  params : TxParams
deriving DecidableEq, Repr

/-- Modelled from the spec: `ol_types::block::Block` (the mined block-zero
proof) is outside src/ and opaque to the wizard. -/
structure Block where
  proof : List Nat
deriving DecidableEq, Repr

/-- `diem_wallet::WalletLibrary`, opaque mnemonic-derived key material. -/
structure WalletLibrary where
  mnemonic : Nat
deriving DecidableEq, Repr

/-- `ol_keys::scheme::KeyScheme`, derived deterministically from the wallet
by `KeyScheme::new`. -/
structure KeyScheme where
  wallet : WalletLibrary
deriving DecidableEq, Repr

/-- `KeyScheme::new(&wallet)`. -/
def KeyScheme.new (w : WalletLibrary) : KeyScheme := ⟨w⟩

/-- The account manifest `ValConfigs::new(block, keys, ip, batch, signed)`
written by `create_manifest`. -/
structure ValConfigs where
  block : Option Block
  keys : KeyScheme
  ip : String
  autopay_batch : Option (List PayInstruction)
  autopay_signed : Option (List SignedTransaction)
deriving DecidableEq, Repr

/-- How a run halts: `exit(1)` or a Rust panic from `unwrap`/`expect`.
Constructors are in pipeline order. -/
inductive RunError where
  /-- `exit(1)` after printing the missing-URL message (upstream peer
  resolution). -/
  | exitNoUpstreamUrl
  /-- `g_res.unwrap()` in `save_template` when `reqwest::blocking::get`
  itself returned `Err` (the request never succeeded). -/
  | panicUnwrapFetch
  /-- `.bytes().expect("cannot connect to upstream node")` in
  `save_template` when reading the response body failed. -/
  | panicCannotConnect
  /-- `PayInstruction::parse_autopay_instructions(..).unwrap()`. -/
  | panicParseAutopay
  /-- `submit_tx::get_tx_params_from_toml(..).unwrap()`. -/
  | panicTxParams
  /-- `initialize_validator(..).expect(..)`. -/
  | panicInitKeys
  /-- `ol_node_files::write_node_config_files(..).unwrap()`. -/
  | panicNodeFiles
deriving DecidableEq, Repr

/-- The user-facing message attached to the halt, when the source supplies
one explicitly (an `expect` message or a printed error); `none` for plain
`unwrap` panics, whose message is the generic
"called Result.unwrap on an Err value". -/
def RunError.user_message : RunError → Option String
  | .exitNoUpstreamUrl =>
      some "ERROR: Must set a URL to query chain. Use --upstream-peer of --template-url, exiting."
  | .panicUnwrapFetch => none
  | .panicCannotConnect => some "cannot connect to upstream node"
  | .panicParseAutopay => none
  | .panicTxParams => none
  | .panicInitKeys => some "could not initialize validator key_store.json"
  | .panicNodeFiles => none

/-- Observable side effects of a run, in the order they happen. -/
inductive Event where
  /-- `AppCfg::init_app_configs` persisted 0L.toml. -/
  | configs_written
  /-- `File::create` created (or truncated) a file, leaving it empty. -/
  | file_created (p : Path)
  /-- `write_all` stored `content` into the file at `p`. -/
  | file_written (p : Path) (content : List Nat)
  /-- `initialize_validator` wrote key_store.json. -/
  | keys_initialized
  /-- `files_cmd::get_files` fetched the genesis files from the git
  archive. -/
  | genesis_files_fetched
  /-- `fs::copy` copied the bundled test-fixture genesis.blob. -/
  | test_blob_copied
  /-- `ol_node_files::write_node_config_files` wrote the node config,
  referencing the resolved prebuilt genesis path. -/
  | node_config_written (genesis_path : Option Path)
  /-- `miner::block::write_genesis` mined and wrote the block-zero proof. -/
  | mined
  /-- `create_manifest` wrote the account manifest `m` at path `p`. -/
  | manifest_written (p : Path) (m : ValConfigs)
deriving DecidableEq, Repr

/-- The outcome of `reqwest::blocking::get(url)` followed by `.bytes()`:
the request itself may fail, the body read may fail, or the bytes arrive. -/
inductive FetchResult where
  | sendFailed
  | bodyFailed
  | ok (content : List Nat)
deriving DecidableEq, Repr

/-- Everything the wizard obtains from outside src/: the prompt, the
environment, the network and the external collaborator crates.  Fallible
collaborators are oracles returning `Option`/`Bool`; `none`/`false` makes
the corresponding `unwrap`/`expect` panic. -/
structure World where
  /-- `wallet::get_account_from_prompt` (the wallet; authkey and account
  flow only into `init_app_configs`, which is itself an oracle here). -/
  wallet : WalletLibrary
  /-- The `AppCfg` produced and persisted by `AppCfg::init_app_configs`. -/
  app_config : AppCfg
  /-- Outcome of `reqwest::blocking::get` plus `.bytes()` at a given URL
  (the network, from `save_template`'s point of view). -/
  fetch_template : Url → FetchResult
  /-- `PayInstruction::parse_autopay_instructions(path, start, end)`;
  `none` is a parse failure (the source unwraps it). -/
  parse_autopay : Path → Option Nat → Option Nat → Option (List PayInstruction)
  /-- `submit_tx::get_tx_params_from_toml(..)`; `none` is failure. -/
  tx_params : Option TxParams
  /-- Whether `init_cmd::initialize_validator` succeeds. -/
  init_keys_ok : Bool
  /-- Whether `ol_node_files::write_node_config_files` succeeds. -/
  node_files_ok : Bool
  /-- Pre-existing content of `<block_dir>/block_0.json`, `none` when the
  file is absent or unreadable. -/
  block_file : Option Block
  /-- The proof `miner::block::write_genesis` stores when mining runs. -/
  mined_block : Block
  /-- `entry_args.swarm_path.as_ref().is_some()`. -/
  is_swarm : Bool
  /-- The global test-fixture flag `ol_types::config::IS_TEST`. -/
  is_test : Bool

/-- The options of the `val-wizard` subcommand (`struct ValWizardCmd`). -/
structure ValWizardCmd where
  output_path : Option Path
  home_path : Option Path
  chain_id : Option Nat
  github_org : Option String
  repo : Option String
  prebuilt_genesis : Option Path
  fetch_git_genesis : Bool
  skip_mining : Bool
  template_url : Option Url
  autopay_file : Option Path
  upstream_peer : Option Url
  source_path : Option Path
  waypoint : Option Nat
  epoch : Option Nat
  ci : Bool
  genesis_ceremony : Bool

/-! ## Upstream peer resolution (`ValWizardCmd::run`, lines 77-89) -/

/-- The upstream-peer resolution at the top of the run: in ceremony mode no
peer is resolved; otherwise the explicit `--upstream-peer` option, falling
back to `--template-url`, and `exit(1)` with the printed error when both are
absent; the resolved peer's port is set to 8080 before use. -/
def resolve_upstream_peer (genesis_ceremony : Bool)
    (upstream_peer template_url : Option Url) :
    Except RunError (Option Url) :=
  if genesis_ceremony then
    .ok none
  else
    match upstream_peer.orElse fun _ => template_url with
    | some upstream => .ok (some (upstream.set_port (some 8080)))
    | none => .error .exitNoUpstreamUrl

/-! ## Autopay batch building (`get_autopay_batch`, lines 216-264) -/

/-- The source file name chosen by `get_autopay_batch`: `template.json` when
a template reference is present (it assumes the template was downloaded from
the URL), `autopay_batch.json` otherwise. -/
def autopay_file_name (template : Option Url) : String :=
  if template.isSome then "template.json" else "autopay_batch.json"

/-- The path handed to the instruction reader: the explicit `file_path`
override when given, else the chosen file name under the home path. -/
def autopay_source_path (template : Option Url) (file_path : Option Path)
    (home_path : Path) : Path :=
  file_path.getD (home_path ++ [autopay_file_name template])

/-- The starting epoch the parse is anchored to:
`cfg.chain_info.base_epoch.unwrap_or(0)`. -/
def autopay_starting_epoch (cfg : AppCfg) : Nat :=
  cfg.chain_info.base_epoch.getD 0

/-- Modelled from the spec: `autopay_batch_cmd::process_instructions` is
outside src/; per the spec it converts each instruction into an executable
transaction script, a deterministic 1:1 order-preserving mapping. -/
def process_instructions (instrs : List PayInstruction) :
    List TransactionScript :=
  instrs.map fun i => ⟨i⟩

/-- Modelled from the spec: `autopay_batch_cmd::sign_instructions` is
outside src/; per the spec it signs every script with a sequence number
starting from the given one, under the resolved parameters, returning the
signed transactions index-aligned with the scripts. -/
def sign_instructions : List TransactionScript → Nat → TxParams →
    List SignedTransaction
  | [], _, _ => []
  | s :: rest, seq, params =>
      ⟨s, seq, params⟩ :: sign_instructions rest (seq + 1) params

/-- The transaction expiration chosen in `get_autopay_batch`: a near
infinite window when building test fixtures (`IS_TEST`), 7 days
otherwise. -/
def tx_expiration_sec (is_test : Bool) : Nat :=
  if is_test then
    100 * 360 * 24 * 60 * 60
  else
    7 * 24 * 60 * 60

/-- `get_autopay_batch`: choose the source file, parse it into instructions
anchored at the base epoch (a parse failure is unwrapped, hence fatal);
return the instructions with no signed transactions in ceremony mode
(`is_genesis`); otherwise convert the instructions to scripts, resolve the
tx parameters (fatal on failure), override their user timeout with the
chosen expiration and sign the scripts from sequence number 0. -/
def get_autopay_batch
    (parse : Path → Option Nat → Option Nat → Option (List PayInstruction))
    (get_tx_params : Option TxParams)
    (template : Option Url) (file_path : Option Path) (home_path : Path)
    (cfg : AppCfg) (is_swarm : Bool) (is_genesis : Bool) (is_test : Bool) :
    Except RunError
      (Option (List PayInstruction) × Option (List SignedTransaction)) :=
  let starting_epoch := autopay_starting_epoch cfg
  match parse (autopay_source_path template file_path home_path)
      (some starting_epoch) none with
  | none => .error .panicParseAutopay
  | some instr_vec =>
    if is_genesis then
      .ok (some instr_vec, none)
    else
      let script_vec := process_instructions instr_vec
      match get_tx_params with
      | none => .error .panicTxParams
      | some tx_params₀ =>
        let expiration := tx_expiration_sec is_test
        let tx_params : TxParams :=
          { tx_params₀ with
            tx_cost := { tx_params₀.tx_cost with user_tx_timeout := expiration } }
        let txn_vec := sign_instructions script_vec 0 tx_params
        .ok (some instr_vec, some txn_vec)

/-! ## Template download (`save_template`, lines 267-278) -/

/-- `save_template`: issue the blocking GET for the template, then create
(truncating) `template.json` under the home path, and only then inspect the
fetch result: `unwrap` the response (a failed request panics with the
generic unwrap message), read its bytes
(`expect("cannot connect to upstream node")`) and write them to the file.
The returned trace records the file operations that happened before the
halt, so a failed fetch leaves the created, still empty `template.json`
behind. -/
def save_template (fetch : Url → FetchResult) (url : Url)
    (home_path : Path) : List Event × Except RunError Path :=
  let g_res := fetch url
  let g_path := home_path ++ ["template.json"]
  match g_res with
  | .sendFailed => ([.file_created g_path], .error .panicUnwrapFetch)
  | .bodyFailed => ([.file_created g_path], .error .panicCannotConnect)
  | .ok content =>
      ([.file_created g_path, .file_written g_path content], .ok g_path)

/-! ## Genesis sourcing (`ValWizardCmd::run`, lines 135-157) -/

/-- What the non-ceremony genesis-sourcing block did: which of the two
effectful strategies ran and the resulting prebuilt-genesis path. -/
structure GenesisStageResult where
  fetched_git : Bool
  copied_fixture : Bool
  prebuilt_genesis_path : Option Path
deriving DecidableEq, Repr

/-- The default strategy: neither the git fetch nor the fixture copy ran,
so the caller-supplied prebuilt path was kept. -/
def GenesisStageResult.prebuilt_default (r : GenesisStageResult) : Bool :=
  !r.fetched_git && !r.copied_fixture

/-- The genesis-sourcing block: with `--fetch-git-genesis` the files are
fetched from the git archive (overriding the prebuilt path with
`<home>/genesis.blob`); otherwise with `--ci` the bundled test fixture blob
is copied there; otherwise the caller-supplied `--prebuilt-genesis` path is
kept. -/
def genesis_stage (fetch_git ci : Bool) (prebuilt : Option Path)
    (home_path : Path) : GenesisStageResult :=
  if fetch_git then
    { fetched_git := true, copied_fixture := false,
      prebuilt_genesis_path := some (home_path ++ ["genesis.blob"]) }
  else if ci then
    { fetched_git := false, copied_fixture := true,
      prebuilt_genesis_path := some (home_path ++ ["genesis.blob"]) }
  else
    { fetched_git := false, copied_fixture := false,
      prebuilt_genesis_path := prebuilt }

/-- The side effects of the genesis-sourcing block. -/
def GenesisStageResult.events (r : GenesisStageResult) : List Event :=
  (if r.fetched_git then [Event.genesis_files_fetched] else []) ++
  (if r.copied_fixture then [Event.test_blob_copied] else [])

/-! ## Manifest writing (`write_account_json`, lines 281-301) -/

/-- Modelled from the spec: `Block::parse_block_file` is outside src/ (only
its caller is in this excerpt).  Per the spec the writer loads the mined
proof from the canonical block location, and absence of the file is fatal
only when mining was not skipped; the wizard's skip-mining contract demands
the writer not require the file, so the load yields the file's content when
present and no proof otherwise. -/
def parse_block_file (file : Option Block) : Option Block := file

/-- `write_account_json`: resolve the config (the caller always passes one;
the global `app_config()` is the fallback), default the output path to the
node home, derive the key scheme from the wallet, load the block-zero proof
from `<block_dir>/block_0.json` and assemble the `ValConfigs` manifest to be
created at the output path. -/
def write_account_json (json_path : Option Path) (wallet : WalletLibrary)
    (wizard_config : Option AppCfg) (global_config : AppCfg)
    (autopay_batch : Option (List PayInstruction))
    (autopay_signed : Option (List SignedTransaction))
    (block_file : Option Block) : ValConfigs × Path :=
  let cfg := wizard_config.getD global_config
  let out_path := json_path.getD cfg.workspace.node_home
  let keys := KeyScheme.new wallet
  let block := parse_block_file block_file
  (⟨block, keys, cfg.profile.ip, autopay_batch, autopay_signed⟩, out_path)

/-! ## The orchestration pipeline (`ValWizardCmd::run`, lines 64-213) -/

/-- The template block of the run (lines 107-113): when a template URL was
given, set its port to the web port 3030, join `account.json` and download
it with `save_template`; no template URL means no fetch at all. -/
def template_stage (template_url : Option Url) (fetch : Url → FetchResult)
    (home_path : Path) : List Event × Except RunError Unit :=
  match template_url with
  | none => ([], .ok ())
  | some url =>
      let url := (url.set_port (some 3030)).join "account.json"
      ((save_template fetch url home_path).1,
       (save_template fetch url home_path).2.map fun _ => ())

/-- The genesis block of the run (lines 135-181): skipped entirely in
ceremony mode; otherwise source the genesis via `genesis_stage` and write
the node config files referencing the resolved prebuilt path (a failure of
the node-file writer is unwrapped, hence fatal). -/
def genesis_block_stage (genesis_ceremony fetch_git ci : Bool)
    (prebuilt : Option Path) (home_path : Path) (node_files_ok : Bool) :
    List Event × Except RunError Unit :=
  if genesis_ceremony then
    ([], .ok ())
  else
    let r := genesis_stage fetch_git ci prebuilt home_path
    if node_files_ok then
      (r.events ++ [Event.node_config_written r.prebuilt_genesis_path],
       .ok ())
    else
      (r.events, .error .panicNodeFiles)

/-- The whole run: prompt for credentials, resolve the upstream peer, write
the app configs, optionally download the template, build the autopay batch,
initialize the validator keys, source the genesis and write node files
(non-ceremony only), mine block zero unless skipped, and write the account
manifest.  The result is the ordered trace of side effects together with
`.ok ()` for a completed run or the `RunError` it halted on. -/
def ValWizardCmd.run (cmd : ValWizardCmd) (w : World) :
    List Event × Except RunError Unit :=
  match resolve_upstream_peer cmd.genesis_ceremony cmd.upstream_peer
      cmd.template_url with
  | .error e => ([], .error e)
  | .ok _upstream =>
    let cfg := w.app_config
    let home_path := cfg.workspace.node_home
    let t := template_stage cmd.template_url w.fetch_template home_path
    match t.2 with
    | .error e => (Event.configs_written :: t.1, .error e)
    | .ok () =>
      match get_autopay_batch w.parse_autopay w.tx_params cmd.template_url
          cmd.autopay_file home_path cfg w.is_swarm cmd.genesis_ceremony
          w.is_test with
      | .error e => (Event.configs_written :: t.1, .error e)
      | .ok (autopay_batch, autopay_signed) =>
        if w.init_keys_ok then
          let g := genesis_block_stage cmd.genesis_ceremony
            cmd.fetch_git_genesis cmd.ci cmd.prebuilt_genesis home_path
            w.node_files_ok
          match g.2 with
          | .error e =>
              (Event.configs_written :: t.1
                ++ Event.keys_initialized :: g.1, .error e)
          | .ok () =>
            let ev_m : List Event :=
              if cmd.skip_mining then [] else [Event.mined]
            let block_file :=
              if cmd.skip_mining then w.block_file else some w.mined_block
            let wa := write_account_json cmd.output_path w.wallet (some cfg)
              cfg autopay_batch autopay_signed block_file
            (Event.configs_written :: t.1
              ++ Event.keys_initialized :: g.1
              ++ ev_m ++ [Event.manifest_written wa.2 wa.1],
             .ok ())
        else
          (Event.configs_written :: t.1, .error .panicInitKeys)

/-! ## Sample inputs used by the witnesses -/

/-- A concrete pay instruction. -/
def sampleInstr : PayInstruction := ⟨7, 50, 0, some 100⟩

/-- A parse oracle that yields one instruction for every file. -/
def sampleParse : Path → Option Nat → Option Nat →
    Option (List PayInstruction) :=
  fun _ _ _ => some [sampleInstr]

/-- Concrete resolved tx parameters. -/
def sampleParams : TxParams := ⟨⟨30⟩⟩

/-- A concrete application configuration with home `["home"]`. -/
def sampleCfg : AppCfg := ⟨⟨["home"]⟩, ⟨none, none⟩, ⟨"a1b2", "1.2.3.4"⟩⟩

/-- A concrete URL. -/
def sampleUrl : Url := ⟨"example.com", some 80, []⟩

/-- A concrete command: non-ceremony, no template, explicit upstream peer,
no genesis flags, mining on. -/
def sampleCmd : ValWizardCmd :=
  { output_path := none, home_path := none, chain_id := none,
    github_org := none, repo := none, prebuilt_genesis := none,
    fetch_git_genesis := false, skip_mining := false, template_url := none,
    autopay_file := none, upstream_peer := some sampleUrl,
    source_path := none, waypoint := none, epoch := none, ci := false,
    genesis_ceremony := false }

/-- A concrete world where every collaborator succeeds. -/
def sampleWorld : World :=
  { wallet := ⟨0⟩, app_config := sampleCfg,
    fetch_template := fun _ => FetchResult.ok [],
    parse_autopay := fun _ _ _ => some [],
    tx_params := some sampleParams,
    init_keys_ok := true, node_files_ok := true,
    block_file := none, mined_block := ⟨[]⟩,
    is_swarm := false, is_test := false }

/-! ## Helper lemmas about the modelled signer -/

/-- Signing scripts produced from a list of instructions gives back exactly
those instructions, in order. -/
theorem sign_process_map_instr (l : List PayInstruction) (seq : Nat)
    (p : TxParams) :
    (sign_instructions (process_instructions l) seq p).map
      (fun t => t.script.instr) = l := by
  induction l generalizing seq with
  | nil => rfl
  | cons a rest ih =>
      simp only [process_instructions, List.map] at *
      simp [sign_instructions, ih (seq + 1)]

/-- Every transaction produced by the signer carries the parameters it was
signed with. -/
theorem sign_instructions_params (s : List TransactionScript) (seq : Nat)
    (p : TxParams) :
    ∀ t ∈ sign_instructions s seq p, t.params = p := by
  induction s generalizing seq with
  | nil => intro t ht; cases ht
  | cons a rest ih =>
      intro t ht
      simp only [sign_instructions, List.mem_cons] at ht
      rcases ht with h | h
      · subst h; rfl
      · exact ih (seq + 1) t h

/-! ## The claims -/

/-- C1: for every valid autopay file processed in non-ceremony mode,
`get_autopay_batch` returns an instruction sequence and a signed-transaction
sequence of equal length whose elements correspond 1:1 in the same order
(the script of signed transaction `i` is instruction `i`). -/
theorem autopay_batch_aligned
    (parse : Path → Option Nat → Option Nat → Option (List PayInstruction))
    (get_tx_params : Option TxParams) (template : Option Url)
    (file_path : Option Path) (home_path : Path) (cfg : AppCfg)
    (is_swarm is_test : Bool)
    (r : Option (List PayInstruction) × Option (List SignedTransaction))
    (h : get_autopay_batch parse get_tx_params template file_path home_path
        cfg is_swarm false is_test = .ok r) :
    ∃ instrs txns, r = (some instrs, some txns) ∧
      txns.length = instrs.length ∧
      txns.map (fun t => t.script.instr) = instrs := by
  simp only [get_autopay_batch] at h
  rcases hp : parse (autopay_source_path template file_path home_path)
      (some (autopay_starting_epoch cfg)) none with _ | instrs
  · rw [hp] at h; cases h
  · rw [hp] at h
    rcases hq : get_tx_params with _ | params
    · rw [hq] at h; cases h
    · rw [hq] at h
      simp only [Bool.false_eq_true, if_false, Except.ok.injEq] at h
      refine ⟨instrs, _, h.symm, ?_, sign_process_map_instr ..⟩
      have := congrArg List.length
        (sign_process_map_instr instrs 0
          { sampleParams with
            tx_cost := { user_tx_timeout := tx_expiration_sec is_test } })
      simpa using this

/-- Witness for C1 at a concrete parse oracle and configuration. -/
theorem autopay_batch_aligned_witness :
    ∃ instrs txns,
      ((some [sampleInstr], some (sign_instructions
          (process_instructions [sampleInstr]) 0
          { sampleParams with
            tx_cost := { user_tx_timeout := tx_expiration_sec false } })) :
        Option (List PayInstruction) × Option (List SignedTransaction))
        = (some instrs, some txns) ∧
      txns.length = instrs.length ∧
      txns.map (fun t => t.script.instr) = instrs :=
  autopay_batch_aligned sampleParse (some sampleParams) none none ["home"]
    sampleCfg false false _ rfl

/-- C2: with the ceremony flag set, `get_autopay_batch` never returns a
signed-transaction sequence: whenever it returns, the result is exactly the
parsed instructions paired with `none`; moreover the result does not depend
on the signing-parameter oracle, so no signing is performed. -/
theorem autopay_batch_ceremony
    (parse : Path → Option Nat → Option Nat → Option (List PayInstruction))
    (get_tx_params : Option TxParams) (template : Option Url)
    (file_path : Option Path) (home_path : Path) (cfg : AppCfg)
    (is_swarm is_test : Bool) :
    (∀ r, get_autopay_batch parse get_tx_params template file_path home_path
        cfg is_swarm true is_test = .ok r →
      ∃ instrs, r = (some instrs, none) ∧
        parse (autopay_source_path template file_path home_path)
          (some (autopay_starting_epoch cfg)) none = some instrs)
    ∧ ∀ get_tx_params₂,
        get_autopay_batch parse get_tx_params template file_path home_path
          cfg is_swarm true is_test
        = get_autopay_batch parse get_tx_params₂ template file_path home_path
          cfg is_swarm true is_test := by
  constructor
  · intro r h
    simp only [get_autopay_batch] at h
    rcases hp : parse (autopay_source_path template file_path home_path)
        (some (autopay_starting_epoch cfg)) none with _ | instrs
    · rw [hp] at h; cases h
    · rw [hp] at h
      simp only [if_true, Except.ok.injEq] at h
      exact ⟨instrs, h.symm, rfl⟩
  · intro get_tx_params₂
    simp only [get_autopay_batch]
    rcases parse (autopay_source_path template file_path home_path)
        (some (autopay_starting_epoch cfg)) none with _ | instrs <;> simp

/-- Witness for C2 at a concrete parse oracle and configuration. -/
theorem autopay_batch_ceremony_witness :
    (∃ instrs,
      ((some [sampleInstr], none) :
        Option (List PayInstruction) × Option (List SignedTransaction))
        = (some instrs, none) ∧
      sampleParse (autopay_source_path none none ["home"])
        (some (autopay_starting_epoch sampleCfg)) none = some instrs) :=
  (autopay_batch_ceremony sampleParse (some sampleParams) none none ["home"]
    sampleCfg false false).1 (some [sampleInstr], none) rfl

/-- C4: in non-ceremony mode the upstream peer is the explicit
`--upstream-peer` option when present, else the template URL, with its port
set to the chain query port 8080; with neither present the run exits
fatally telling the operator to supply one; in ceremony mode no upstream
peer is resolved. -/
theorem upstream_peer_resolution :
    (∀ upstream_peer template_url,
      resolve_upstream_peer true upstream_peer template_url = .ok none)
    ∧ (∀ u template_url,
      resolve_upstream_peer false (some u) template_url
        = .ok (some (u.set_port (some 8080))))
    ∧ (∀ t, resolve_upstream_peer false none (some t)
        = .ok (some (t.set_port (some 8080))))
    ∧ resolve_upstream_peer false none none = .error .exitNoUpstreamUrl
    ∧ RunError.exitNoUpstreamUrl.user_message
        = some "ERROR: Must set a URL to query chain. Use --upstream-peer of --template-url, exiting." := by
  refine ⟨fun _ _ => rfl, fun _ _ => rfl, fun _ => rfl, rfl, rfl⟩

/-- C5: every signed transaction of a generated batch carries tx parameters
whose user transaction timeout is 100·360·24·60·60 seconds under the
test-fixture flag and 7·24·60·60 seconds otherwise. -/
theorem tx_expiration_value
    (parse : Path → Option Nat → Option Nat → Option (List PayInstruction))
    (get_tx_params : Option TxParams) (template : Option Url)
    (file_path : Option Path) (home_path : Path) (cfg : AppCfg)
    (is_swarm is_test : Bool)
    (r : Option (List PayInstruction) × Option (List SignedTransaction))
    (h : get_autopay_batch parse get_tx_params template file_path home_path
        cfg is_swarm false is_test = .ok r) :
    ∃ txns, r.2 = some txns ∧
      ∀ t ∈ txns, t.params.tx_cost.user_tx_timeout
        = if is_test then 100 * 360 * 24 * 60 * 60 else 7 * 24 * 60 * 60 := by
  simp only [get_autopay_batch] at h
  rcases hp : parse (autopay_source_path template file_path home_path)
      (some (autopay_starting_epoch cfg)) none with _ | instrs
  · rw [hp] at h; cases h
  · rw [hp] at h
    rcases hq : get_tx_params with _ | params
    · rw [hq] at h; cases h
    · rw [hq] at h
      simp only [Bool.false_eq_true, if_false, Except.ok.injEq] at h
      refine ⟨_, congrArg Prod.snd h.symm, ?_⟩
      intro t ht
      rw [sign_instructions_params _ _ _ t ht]
      rfl

/-- Witness for C5 at a concrete parse oracle and configuration. -/
theorem tx_expiration_value_witness :
    ∃ txns,
      ((some [sampleInstr], some (sign_instructions
          (process_instructions [sampleInstr]) 0
          { sampleParams with
            tx_cost := { user_tx_timeout := tx_expiration_sec true } })) :
        Option (List PayInstruction) × Option (List SignedTransaction)).2
        = some txns ∧
      ∀ t ∈ txns, t.params.tx_cost.user_tx_timeout
        = if true then 100 * 360 * 24 * 60 * 60 else 7 * 24 * 60 * 60 :=
  tx_expiration_value sampleParse (some sampleParams) none none ["home"]
    sampleCfg false true _ rfl

/-- C7: `get_autopay_batch` reads the explicit file-path override
unconditionally when given, otherwise `template.json` under the home path
when a template reference is present and `autopay_batch.json` otherwise;
the parse is anchored to the chain's base epoch, with epoch 0 when the base
epoch is unset; and the batch depends on the file reader only through that
one path and anchor. -/
theorem autopay_source_selection :
    (∀ template home_path p,
      autopay_source_path template (some p) home_path = p)
    ∧ (∀ u home_path, autopay_source_path (some u) none home_path
        = home_path ++ ["template.json"])
    ∧ (∀ home_path, autopay_source_path none none home_path
        = home_path ++ ["autopay_batch.json"])
    ∧ (∀ cfg, cfg.chain_info.base_epoch = none →
        autopay_starting_epoch cfg = 0)
    ∧ (∀ cfg e, cfg.chain_info.base_epoch = some e →
        autopay_starting_epoch cfg = e)
    ∧ (∀ (parse₁ parse₂ : Path → Option Nat → Option Nat →
          Option (List PayInstruction))
        get_tx_params template file_path home_path cfg is_swarm is_genesis
        is_test,
        parse₁ (autopay_source_path template file_path home_path)
            (some (autopay_starting_epoch cfg)) none
          = parse₂ (autopay_source_path template file_path home_path)
            (some (autopay_starting_epoch cfg)) none →
        get_autopay_batch parse₁ get_tx_params template file_path home_path
            cfg is_swarm is_genesis is_test
          = get_autopay_batch parse₂ get_tx_params template file_path
            home_path cfg is_swarm is_genesis is_test) := by
  refine ⟨fun _ _ _ => rfl, fun _ _ => rfl, fun _ => rfl,
    ?_, ?_, ?_⟩
  · intro cfg hc
    simp [autopay_starting_epoch, hc]
  · intro cfg e hc
    simp [autopay_starting_epoch, hc]
  · intro parse₁ parse₂ get_tx_params template file_path home_path cfg
      is_swarm is_genesis is_test hp
    simp only [get_autopay_batch, hp]

/-- Witness for C7 at concrete configurations and oracles. -/
theorem autopay_source_selection_witness :
    autopay_starting_epoch sampleCfg = 0
    ∧ autopay_starting_epoch ⟨⟨["home"]⟩, ⟨some 4, none⟩, ⟨"k", "ip"⟩⟩ = 4
    ∧ get_autopay_batch sampleParse (some sampleParams) none none ["home"]
        sampleCfg false false false
      = get_autopay_batch (fun p s e =>
          if p = ["home", "autopay_batch.json"] ∧ s = some 0 ∧ e = none then
            some [sampleInstr]
          else none)
        (some sampleParams) none none ["home"] sampleCfg false false false :=
  ⟨autopay_source_selection.2.2.2.1 sampleCfg rfl,
   autopay_source_selection.2.2.2.2.1 _ 4 rfl,
   autopay_source_selection.2.2.2.2.2 sampleParse _ (some sampleParams)
     none none ["home"] sampleCfg false false false (by decide)⟩

/-- C9: when both `--fetch-git-genesis` and `--ci` are set in the
non-ceremony genesis-sourcing block, the git fetch runs and the
test-fixture blob is never copied; the prebuilt path is overridden with
`<home>/genesis.blob`. -/
theorem genesis_git_over_ci (prebuilt : Option Path) (home_path : Path) :
    (genesis_stage true true prebuilt home_path).events
      = [Event.genesis_files_fetched]
    ∧ (genesis_stage true true prebuilt home_path).copied_fixture = false
    ∧ (genesis_stage true true prebuilt home_path).prebuilt_genesis_path
      = some (home_path ++ ["genesis.blob"]) := by
  refine ⟨rfl, rfl, rfl⟩

/-- C10: `save_template` creates (truncating) `template.json` before the
fetched response is inspected, so on a failed fetch the run halts with the
created — and still empty — `template.json` as its only file effect. -/
theorem save_template_not_atomic (fetch : Url → FetchResult) (url : Url)
    (home_path : Path)
    (hfail : fetch url = FetchResult.sendFailed
      ∨ fetch url = FetchResult.bodyFailed) :
    (save_template fetch url home_path).1
      = [Event.file_created (home_path ++ ["template.json"])]
    ∧ (∀ p c, Event.file_written p c ∉ (save_template fetch url home_path).1)
    ∧ ∃ e, (save_template fetch url home_path).2 = .error e := by
  rcases hfail with h | h <;>
    simp [save_template, h]

/-- Witness for C10 at a concrete failing fetch. -/
theorem save_template_not_atomic_witness :
    (save_template (fun _ => FetchResult.sendFailed) sampleUrl ["home"]).1
      = [Event.file_created (["home"] ++ ["template.json"])]
    ∧ (∀ p c, Event.file_written p c ∉
        (save_template (fun _ => FetchResult.sendFailed) sampleUrl
          ["home"]).1)
    ∧ ∃ e, (save_template (fun _ => FetchResult.sendFailed) sampleUrl
        ["home"]).2 = .error e :=
  save_template_not_atomic (fun _ => FetchResult.sendFailed) sampleUrl
    ["home"] (Or.inl rfl)

/-- The template stage only touches files: every event it emits is a file
creation or a file write. -/
theorem template_stage_events_shape (template_url : Option Url)
    (fetch : Url → FetchResult) (home_path : Path) :
    ∀ e ∈ (template_stage template_url fetch home_path).1,
      (∃ p, e = Event.file_created p) ∨ ∃ p c, e = Event.file_written p c := by
  rcases template_url with _ | url
  · intro e he; cases he
  · intro e he
    simp only [template_stage, save_template] at he
    rcases hf : fetch ((url.set_port (some 3030)).join "account.json") with
      _ | _ | c <;> rw [hf] at he <;> simp at he
    · exact Or.inl ⟨_, he⟩
    · exact Or.inl ⟨_, he⟩
    · rcases he with he | he
      · exact Or.inl ⟨_, he⟩
      · exact Or.inr ⟨_, _, he⟩

/-- When every fetch succeeds, the template stage succeeds. -/
theorem template_stage_ok (template_url : Option Url)
    (fetch : Url → FetchResult) (home_path : Path)
    (hfetch : ∀ u, ∃ c, fetch u = FetchResult.ok c) :
    (template_stage template_url fetch home_path).2 = .ok () := by
  rcases template_url with _ | url
  · rfl
  · obtain ⟨c, hc⟩ := hfetch ((url.set_port (some 3030)).join "account.json")
    simp [template_stage, save_template, hc, Except.map]

/-- Which genesis-sourcing events a non-ceremony genesis block emits, as a
function of the two flags. -/
theorem genesis_block_stage_members (fetch_git ci : Bool)
    (prebuilt : Option Path) (home_path : Path) (node_files_ok : Bool) :
    (Event.genesis_files_fetched ∈
        (genesis_block_stage false fetch_git ci prebuilt home_path
          node_files_ok).1
      ↔ fetch_git = true)
    ∧ (Event.test_blob_copied ∈
        (genesis_block_stage false fetch_git ci prebuilt home_path
          node_files_ok).1
      ↔ (fetch_git = false ∧ ci = true)) := by
  cases fetch_git <;> cases ci <;> cases node_files_ok <;>
    simp [genesis_block_stage, genesis_stage, GenesisStageResult.events]

/-- When the node-file writer succeeds, the genesis block succeeds. -/
theorem genesis_block_stage_ok (genesis_ceremony fetch_git ci : Bool)
    (prebuilt : Option Path) (home_path : Path) :
    (genesis_block_stage genesis_ceremony fetch_git ci prebuilt home_path
      true).2 = .ok () := by
  cases genesis_ceremony <;> cases fetch_git <;> cases ci <;>
    simp [genesis_block_stage, genesis_stage]

/-- When the parse and the parameter resolution succeed, the autopay batch
builder succeeds. -/
theorem get_autopay_batch_ok
    (parse : Path → Option Nat → Option Nat → Option (List PayInstruction))
    (params : TxParams) (template : Option Url) (file_path : Option Path)
    (home_path : Path) (cfg : AppCfg) (is_swarm is_genesis is_test : Bool)
    (instrs : List PayInstruction)
    (hp : parse (autopay_source_path template file_path home_path)
      (some (autopay_starting_epoch cfg)) none = some instrs) :
    ∃ batch signed,
      get_autopay_batch parse (some params) template file_path home_path cfg
        is_swarm is_genesis is_test = .ok (batch, signed) := by
  cases is_genesis <;> simp [get_autopay_batch, hp]

/-- When a template URL is present, upstream-peer resolution always
succeeds (the template URL itself is the fallback). -/
theorem resolve_upstream_with_template (genesis_ceremony : Bool)
    (upstream_peer : Option Url) (u : Url) :
    ∃ up, resolve_upstream_peer genesis_ceremony upstream_peer (some u)
      = .ok up := by
  cases genesis_ceremony <;> rcases upstream_peer with _ | v <;>
    simp [resolve_upstream_peer, Option.orElse]

/-- Decomposition of a completed run: every stage succeeded and the trace
is the concatenation of the stage traces, ending in the manifest write. -/
theorem run_ok_cases (cmd : ValWizardCmd) (w : World) (tr : List Event)
    (h : ValWizardCmd.run cmd w = (tr, .ok ())) :
    w.init_keys_ok = true
    ∧ (template_stage cmd.template_url w.fetch_template
        w.app_config.workspace.node_home).2 = .ok ()
    ∧ (genesis_block_stage cmd.genesis_ceremony cmd.fetch_git_genesis cmd.ci
        cmd.prebuilt_genesis w.app_config.workspace.node_home
        w.node_files_ok).2 = .ok ()
    ∧ ∃ batch signed,
      get_autopay_batch w.parse_autopay w.tx_params cmd.template_url
          cmd.autopay_file w.app_config.workspace.node_home w.app_config
          w.is_swarm cmd.genesis_ceremony w.is_test = .ok (batch, signed)
      ∧ tr = Event.configs_written ::
          (template_stage cmd.template_url w.fetch_template
            w.app_config.workspace.node_home).1
        ++ Event.keys_initialized ::
          (genesis_block_stage cmd.genesis_ceremony cmd.fetch_git_genesis
            cmd.ci cmd.prebuilt_genesis w.app_config.workspace.node_home
            w.node_files_ok).1
        ++ (if cmd.skip_mining then [] else [Event.mined])
        ++ [Event.manifest_written
            (write_account_json cmd.output_path w.wallet (some w.app_config)
              w.app_config batch signed
              (if cmd.skip_mining then w.block_file
               else some w.mined_block)).2
            (write_account_json cmd.output_path w.wallet (some w.app_config)
              w.app_config batch signed
              (if cmd.skip_mining then w.block_file
               else some w.mined_block)).1] := by
  simp only [ValWizardCmd.run] at h
  rcases hr : resolve_upstream_peer cmd.genesis_ceremony cmd.upstream_peer
      cmd.template_url with e | up <;> rw [hr] at h
  · cases h
  rcases ht : (template_stage cmd.template_url w.fetch_template
      w.app_config.workspace.node_home).2 with e | u <;> rw [ht] at h
  · cases h
  rcases hg : get_autopay_batch w.parse_autopay w.tx_params cmd.template_url
      cmd.autopay_file w.app_config.workspace.node_home w.app_config
      w.is_swarm cmd.genesis_ceremony w.is_test with e | pr <;> rw [hg] at h
  · cases h
  rcases hk : w.init_keys_ok with _ | _ <;> rw [hk] at h
  · simp only [Bool.false_eq_true, if_false] at h
    cases h
  simp only [if_true] at h
  rcases hgs : (genesis_block_stage cmd.genesis_ceremony
      cmd.fetch_git_genesis cmd.ci cmd.prebuilt_genesis
      w.app_config.workspace.node_home w.node_files_ok).2 with e | u <;>
    rw [hgs] at h
  · cases h
  obtain ⟨batch, signed⟩ := pr
  refine ⟨rfl, rfl, rfl, batch, signed, rfl, ?_⟩
  have := congrArg Prod.fst h
  simp only at this
  exact this.symm

/-- C6: in the non-ceremony genesis-sourcing block exactly one strategy is
active — git fetch, test-fixture copy, or keeping the caller-supplied
prebuilt path — and in every completed non-ceremony run the git fetch
happened iff `--fetch-git-genesis` was set and the fixture copy happened
iff `--ci` was set without `--fetch-git-genesis`. -/
theorem genesis_sourcing_exclusive :
    (∀ fetch_git ci prebuilt home_path,
      ((genesis_stage fetch_git ci prebuilt home_path).fetched_git = true
        ∧ (genesis_stage fetch_git ci prebuilt home_path).copied_fixture
          = false
        ∧ (genesis_stage fetch_git ci prebuilt
            home_path).prebuilt_default = false)
      ∨ ((genesis_stage fetch_git ci prebuilt home_path).fetched_git = false
        ∧ (genesis_stage fetch_git ci prebuilt home_path).copied_fixture
          = true
        ∧ (genesis_stage fetch_git ci prebuilt
            home_path).prebuilt_default = false)
      ∨ ((genesis_stage fetch_git ci prebuilt home_path).fetched_git = false
        ∧ (genesis_stage fetch_git ci prebuilt home_path).copied_fixture
          = false
        ∧ (genesis_stage fetch_git ci prebuilt
            home_path).prebuilt_default = true))
    ∧ (∀ cmd w tr, cmd.genesis_ceremony = false →
      ValWizardCmd.run cmd w = (tr, .ok ()) →
      (Event.genesis_files_fetched ∈ tr ↔ cmd.fetch_git_genesis = true)
      ∧ (Event.test_blob_copied ∈ tr
        ↔ (cmd.fetch_git_genesis = false ∧ cmd.ci = true))) := by
  constructor
  · intro fetch_git ci prebuilt home_path
    cases fetch_git <;> cases ci <;>
      simp [genesis_stage, GenesisStageResult.prebuilt_default]
  · intro cmd w tr hcer hrun
    obtain ⟨hk, ht, hgs, batch, signed, hg, htr⟩ := run_ok_cases cmd w tr hrun
    have hshape := template_stage_events_shape cmd.template_url
      w.fetch_template w.app_config.workspace.node_home
    have hnt1 : Event.genesis_files_fetched ∉
        (template_stage cmd.template_url w.fetch_template
          w.app_config.workspace.node_home).1 := by
      intro hm
      rcases hshape _ hm with ⟨p, hp⟩ | ⟨p, c, hp⟩ <;> cases hp
    have hnt2 : Event.test_blob_copied ∉
        (template_stage cmd.template_url w.fetch_template
          w.app_config.workspace.node_home).1 := by
      intro hm
      rcases hshape _ hm with ⟨p, hp⟩ | ⟨p, c, hp⟩ <;> cases hp
    have hmem := genesis_block_stage_members cmd.fetch_git_genesis cmd.ci
      cmd.prebuilt_genesis w.app_config.workspace.node_home w.node_files_ok
    rw [hcer] at htr
    subst htr
    cases hsm : cmd.skip_mining <;>
      simp [List.mem_append, hnt1, hnt2, hmem.1, hmem.2]

/-- Witness for C6 at a concrete command, world and trace. -/
theorem genesis_sourcing_exclusive_witness :
    (Event.genesis_files_fetched ∈
        ([Event.configs_written, Event.keys_initialized,
          Event.node_config_written none, Event.mined,
          Event.manifest_written ["home"]
            ⟨some ⟨[]⟩, ⟨⟨0⟩⟩, "1.2.3.4", some [], some []⟩] : List Event)
      ↔ sampleCmd.fetch_git_genesis = true)
    ∧ (Event.test_blob_copied ∈
        ([Event.configs_written, Event.keys_initialized,
          Event.node_config_written none, Event.mined,
          Event.manifest_written ["home"]
            ⟨some ⟨[]⟩, ⟨⟨0⟩⟩, "1.2.3.4", some [], some []⟩] : List Event)
      ↔ (sampleCmd.fetch_git_genesis = false ∧ sampleCmd.ci = true)) :=
  genesis_sourcing_exclusive.2 sampleCmd sampleWorld _ rfl rfl

/-- C3: with `--skip-mining` set, a run whose other collaborators succeed
completes even when no `block_0.json` exists: the manifest is still
written, with no block proof in it — `write_account_json` does not require
the block-zero proof file. -/
theorem skip_mining_manifest (cmd : ValWizardCmd) (w : World)
    (hskip : cmd.skip_mining = true)
    (hblock : w.block_file = none)
    (hup : ∃ up, resolve_upstream_peer cmd.genesis_ceremony
      cmd.upstream_peer cmd.template_url = .ok up)
    (hfetch : ∀ u, ∃ c, w.fetch_template u = FetchResult.ok c)
    (hparse : ∃ instrs, w.parse_autopay
      (autopay_source_path cmd.template_url cmd.autopay_file
        w.app_config.workspace.node_home)
      (some (autopay_starting_epoch w.app_config)) none = some instrs)
    (hparams : ∃ params, w.tx_params = some params)
    (hkeys : w.init_keys_ok = true)
    (hnode : w.node_files_ok = true) :
    (ValWizardCmd.run cmd w).2 = .ok ()
    ∧ ∃ m, Event.manifest_written
        (cmd.output_path.getD w.app_config.workspace.node_home) m
        ∈ (ValWizardCmd.run cmd w).1
      ∧ m.block = none := by
  obtain ⟨up, hu⟩ := hup
  obtain ⟨instrs, hp⟩ := hparse
  obtain ⟨params, hq⟩ := hparams
  have ht := template_stage_ok cmd.template_url w.fetch_template
    w.app_config.workspace.node_home hfetch
  obtain ⟨batch, signed, hgab⟩ := get_autopay_batch_ok w.parse_autopay
    params cmd.template_url cmd.autopay_file
    w.app_config.workspace.node_home w.app_config w.is_swarm
    cmd.genesis_ceremony w.is_test instrs hp
  have hgs := genesis_block_stage_ok cmd.genesis_ceremony
    cmd.fetch_git_genesis cmd.ci cmd.prebuilt_genesis
    w.app_config.workspace.node_home
  rw [← hnode] at hgs
  rw [← hq] at hgab
  simp only [ValWizardCmd.run, hu, ht, hgab, hgs, hkeys, hskip, if_true]
  refine ⟨trivial, (write_account_json cmd.output_path w.wallet
    (some w.app_config) w.app_config batch signed w.block_file).1, ?_, ?_⟩
  · simp [write_account_json, List.mem_append]
  · simp [write_account_json, parse_block_file, hblock]

/-- Witness for C3: a concrete run with mining skipped and no block file,
ending in a manifest with no block proof. -/
theorem skip_mining_manifest_witness :
    (ValWizardCmd.run { sampleCmd with skip_mining := true } sampleWorld).2
      = .ok ()
    ∧ ∃ m, Event.manifest_written
        (({ sampleCmd with
            skip_mining := true } : ValWizardCmd).output_path.getD
          sampleWorld.app_config.workspace.node_home) m
        ∈ (ValWizardCmd.run { sampleCmd with skip_mining := true }
            sampleWorld).1
      ∧ m.block = none :=
  skip_mining_manifest { sampleCmd with skip_mining := true } sampleWorld
    rfl rfl ⟨some (sampleUrl.set_port (some 8080)), rfl⟩
    (fun _ => ⟨[], rfl⟩) ⟨[], rfl⟩ ⟨sampleParams, rfl⟩ rfl rfl

/-- C8 (amended): when a template URL is supplied and the template fetch
fails, the run halts fatally before key initialization and no account
manifest is written; the halt carries the message "cannot connect to
upstream node" when the response body could not be read, while a failure of
the request itself halts through a bare `unwrap` with no such message. -/
theorem template_fetch_failure_halts (cmd : ValWizardCmd) (w : World)
    (u : Url) (htpl : cmd.template_url = some u)
    (hfail : w.fetch_template ((u.set_port (some 3030)).join "account.json")
        = FetchResult.sendFailed
      ∨ w.fetch_template ((u.set_port (some 3030)).join "account.json")
        = FetchResult.bodyFailed) :
    (∃ e, (ValWizardCmd.run cmd w).2 = .error e
      ∧ (w.fetch_template ((u.set_port (some 3030)).join "account.json")
          = FetchResult.bodyFailed →
          e.user_message = some "cannot connect to upstream node")
      ∧ (w.fetch_template ((u.set_port (some 3030)).join "account.json")
          = FetchResult.sendFailed → e.user_message = none))
    ∧ Event.keys_initialized ∉ (ValWizardCmd.run cmd w).1
    ∧ ∀ p m, Event.manifest_written p m ∉ (ValWizardCmd.run cmd w).1 := by
  obtain ⟨up, hu⟩ := resolve_upstream_with_template cmd.genesis_ceremony
    cmd.upstream_peer u
  rcases hfail with hf | hf <;>
    · simp only [ValWizardCmd.run, htpl, hu, template_stage, save_template,
        hf, Except.map]
      refine ⟨⟨_, rfl, ?_, ?_⟩, ?_, ?_⟩ <;>
        simp [hf, RunError.user_message]

/-- Witness for C8 (amended) at a concrete body-read failure. -/
theorem template_fetch_failure_halts_witness :
    (∃ e, (ValWizardCmd.run { sampleCmd with template_url := some sampleUrl }
        { sampleWorld with
          fetch_template := fun _ => FetchResult.bodyFailed }).2 = .error e
      ∧ (({ sampleWorld with
            fetch_template := fun _ => FetchResult.bodyFailed } :
              World).fetch_template
            ((sampleUrl.set_port (some 3030)).join "account.json")
          = FetchResult.bodyFailed →
          e.user_message = some "cannot connect to upstream node")
      ∧ (({ sampleWorld with
            fetch_template := fun _ => FetchResult.bodyFailed } :
              World).fetch_template
            ((sampleUrl.set_port (some 3030)).join "account.json")
          = FetchResult.sendFailed → e.user_message = none))
    ∧ Event.keys_initialized ∉
        (ValWizardCmd.run { sampleCmd with template_url := some sampleUrl }
          { sampleWorld with
            fetch_template := fun _ => FetchResult.bodyFailed }).1
    ∧ ∀ p m, Event.manifest_written p m ∉
        (ValWizardCmd.run { sampleCmd with template_url := some sampleUrl }
          { sampleWorld with
            fetch_template := fun _ => FetchResult.bodyFailed }).1 :=
  template_fetch_failure_halts
    { sampleCmd with template_url := some sampleUrl }
    { sampleWorld with fetch_template := fun _ => FetchResult.bodyFailed }
    sampleUrl rfl (Or.inr rfl)

/-- Counterexample for C8 as stated: a template fetch that fails at the
request itself (a network connection failure) halts the run, but not with
the "cannot connect to upstream node" message — that message is reserved
for body-read failures, while this halt is a bare `unwrap` panic. -/
theorem template_fetch_failure_message_cex :
    (ValWizardCmd.run { sampleCmd with template_url := some sampleUrl }
      { sampleWorld with
        fetch_template := fun _ => FetchResult.sendFailed }).2
      = .error RunError.panicUnwrapFetch
    ∧ RunError.panicUnwrapFetch.user_message
      ≠ some "cannot connect to upstream node" := by
  exact ⟨rfl, by simp [RunError.user_message]⟩

end Onboard
